import Mathlib

/-!
Shallow embedding of the WebRTC signaling server and WebRTC→RTMP bridge
(`src/server.js`, `src/bridge/WebRTCToRTMPBridge.js`).

JavaScript `Map`s are modelled as insertion-ordered association lists:
`Map.set` replaces an existing key in place or appends a new one,
`Map.get` returns the first (unique) match, `Map.delete` removes the key.
Side effects on native handles (closing a peer connection, killing the
ffmpeg process, stopping tracks, emitting events) are recorded as an
ordered trace of `BridgeAction`s, in the order the source performs them.
-/

namespace SigServer

/-- JavaScript `Map.set`: replace the value of an existing key in place, else append. -/
def jsMapSet {α : Type} (m : List (String × α)) (k : String) (v : α) :
    List (String × α) :=
  match m with
  | [] => [(k, v)]
  | (k', v') :: rest =>
      if k' = k then (k, v) :: rest else (k', v') :: jsMapSet rest k v

/-- JavaScript `Map.get`: first entry with the key (keys are unique in reachable states). -/
def jsMapGet {α : Type} (m : List (String × α)) (k : String) : Option α :=
  match m with
  | [] => none
  | (k', v') :: rest => if k' = k then some v' else jsMapGet rest k

/-- JavaScript `Map.delete`: remove the entry for the key. -/
def jsMapDelete {α : Type} (m : List (String × α)) (k : String) :
    List (String × α) :=
  m.filter (fun p => p.1 ≠ k)

theorem jsMapGet_set_self {α : Type} (m : List (String × α)) (k : String) (v : α) :
    jsMapGet (jsMapSet m k v) k = some v := by
  induction m with
  | nil => simp [jsMapSet, jsMapGet]
  | cons hd tl ih =>
      obtain ⟨k', v'⟩ := hd
      by_cases h : k' = k <;> simp [jsMapSet, jsMapGet, h, ih]

theorem jsMapGet_delete_self {α : Type} (m : List (String × α)) (k : String) :
    jsMapGet (jsMapDelete m k) k = none := by
  induction m with
  | nil => simp [jsMapDelete, jsMapGet]
  | cons hd tl ih =>
      obtain ⟨k', v'⟩ := hd
      by_cases h : k' = k
      · subst h
        simpa [jsMapDelete, jsMapGet] using ih
      · simpa [jsMapDelete, jsMapGet, h] using ih

/-! ## Bridge data model (`WebRTCToRTMPBridge.js`)

A session record mirrors the object stored in `activeStreams`:
`{ pc, streamKey, iceCandidates, answer, ffmpeg, audioTrack, videoTrack,
sdpCreated }`.  Native handles are `Option Nat` (a handle id when present,
`none` for JavaScript `null`). -/

structure StreamInfo where
  pc : Option Nat
  streamKey : String
  iceCandidates : List String
  answerSdp : String
  ffmpeg : Option Nat
  audioTrack : Option Nat
  videoTrack : Option Nat
  sdpCreated : Bool
  deriving Repr, DecidableEq

/-- Bridge state: the `activeStreams` map plus the `wrtcAvailable` flag. -/
structure BridgeState where
  activeStreams : List (String × StreamInfo)
  wrtcAvailable : Bool
  deriving Repr, DecidableEq

/-- Observable side effects of the bridge, in source order. -/
inductive BridgeAction where
  | closePC (streamId : String) (pcHandle : Nat)
  | killFfmpeg (streamId : String) (ffmpegHandle : Nat) (signal : String)
  | stopTrack (streamId : String) (trackHandle : Nat)
  | removeFromMap (streamId : String)
  | emitCleaned (streamId : String)
  | spawnFfmpeg (streamId : String) (ffmpegHandle : Nat)
  | createSDP (streamId : String)
  | addIce (streamId : String) (candidate : String)
  deriving Repr, DecidableEq

/-- The resource-release steps of `cleanupStream`
(`WebRTCToRTMPBridge.js:416-451`), in source order: close the peer
connection (if any), SIGTERM the ffmpeg process (if any), stop the audio
track and the video track (if present). -/
def releaseActs (streamId : String) (info : StreamInfo) : List BridgeAction :=
  (match info.pc with
    | some h => [BridgeAction.closePC streamId h]
    | none => []) ++
  (match info.ffmpeg with
    | some h => [BridgeAction.killFfmpeg streamId h "SIGTERM"]
    | none => []) ++
  (match info.audioTrack with
    | some h => [BridgeAction.stopTrack streamId h]
    | none => []) ++
  (match info.videoTrack with
    | some h => [BridgeAction.stopTrack streamId h]
    | none => [])

/-- Source `cleanupStream(streamId)` (`WebRTCToRTMPBridge.js:408-457`):
if no session exists, return with no effect; otherwise close the peer
connection (if any), send SIGTERM to the ffmpeg process (if any), stop the
audio and video tracks (if present), delete the map entry, and emit
`stream-cleaned` — in exactly that order. -/
def cleanupStream (st : BridgeState) (streamId : String) :
    BridgeState × List BridgeAction :=
  match jsMapGet st.activeStreams streamId with
  | none => (st, [])
  | some info =>
      ({ st with activeStreams := jsMapDelete st.activeStreams streamId },
       releaseActs streamId info ++
         [BridgeAction.removeFromMap streamId, BridgeAction.emitCleaned streamId])

/-- Source `handleIceCandidate(streamId, candidate)` (`WebRTCToRTMPBridge.js:371-392`):
returns `false` when the session is absent or has no peer connection, or when
wrtc is unavailable, or when the native add fails (the exception is caught);
on a successful native add it adds the candidate and returns `true`.
`addOk` models whether the native `addIceCandidate` call succeeds. -/
def handleIceCandidate (st : BridgeState) (streamId : String)
    (candidate : String) (addOk : Bool) : Bool × List BridgeAction :=
  match jsMapGet st.activeStreams streamId with
  | none => (false, [])
  | some info =>
      match info.pc with
      | none => (false, [])
      | some _ =>
          if !st.wrtcAvailable then (false, [])
          else if addOk then (true, [BridgeAction.addIce streamId candidate])
          else (false, [])

/-- The ffmpeg `close` listener (`WebRTCToRTMPBridge.js:293-298`):
`if (code !== 0 && code !== null) this.cleanupStream(streamId)`.
`none` models the JavaScript `null` exit code. -/
def onFfmpegClose (st : BridgeState) (streamId : String) (code : Option Int) :
    BridgeState × List BridgeAction :=
  match code with
  | some c => if c ≠ 0 then cleanupStream st streamId else (st, [])
  | none => (st, [])

/-- Source `getActiveStreamCount()` (`WebRTCToRTMPBridge.js:462-464`). -/
def getActiveStreamCount (st : BridgeState) : Nat :=
  st.activeStreams.length

/-- The view returned by `getStreamInfo` (`WebRTCToRTMPBridge.js:469-485`). -/
structure StreamInfoView where
  streamId : String
  streamKey : String
  hasAudio : Bool
  hasVideo : Bool
  ffmpegRunning : Bool
  wrtcAvailable : Bool
  deriving Repr, DecidableEq

/-- Source `getStreamInfo(streamId)`: `null` when the session is absent, otherwise a
summary view of the record. -/
def getStreamInfo (st : BridgeState) (streamId : String) :
    Option StreamInfoView :=
  match jsMapGet st.activeStreams streamId with
  | none => none
  | some info =>
      some { streamId := streamId
             streamKey := info.streamKey
             hasAudio := info.audioTrack.isSome
             hasVideo := info.videoTrack.isSome
             ffmpegRunning := info.ffmpeg.isSome
             wrtcAvailable := st.wrtcAvailable }

/-! ## `handleOffer` (`WebRTCToRTMPBridge.js:129-222`)

The interactions with the native wrtc engine are modelled by an oracle
`OfferEnv` fixing, for one call, whether wrtc is available (after the retry
of `loadWrtc`), whether each negotiation step succeeds, the handles the
engine hands out, the answer SDP, and the ICE candidates gathered before the
bounded wait returns. -/

structure OfferEnv where
  wrtcAvailable : Bool
  setRemoteOk : Bool
  createAnswerOk : Bool
  setLocalOk : Bool
  pcHandle : Nat
  ffmpegHandle : Nat
  answerSdp : String
  gathered : List String
  deriving Repr, DecidableEq

/-- The value `handleOffer` resolves with: the answer plus the ICE candidates
gathered so far. -/
structure OfferResult where
  answerSdp : String
  iceCandidates : List String
  deriving Repr, DecidableEq

/-- Source `setupMediaProcessing(pc, streamId, streamKey)`
(`WebRTCToRTMPBridge.js:253-349`): unconditionally spawns the ffmpeg
process, installs the `close`/`error`/`ontrack` listeners, and finally —
if a session record already exists in the map — stores the process handle
on it.  The spawn is recorded as an action; the listeners are modelled by
`onTrack` and `onFfmpegClose` below. -/
def setupMediaProcessing (st : BridgeState) (streamId : String)
    (ffmpegHandle : Nat) : BridgeState × List BridgeAction :=
  let st' := match jsMapGet st.activeStreams streamId with
    | some info =>
        { st with activeStreams :=
            jsMapSet st.activeStreams streamId { info with ffmpeg := some ffmpegHandle } }
    | none => st
  (st', [BridgeAction.spawnFfmpeg streamId ffmpegHandle])

/-- The fresh session record stored by `handleOffer` at the end of its
successful path (`WebRTCToRTMPBridge.js:195-207`): `ffmpeg`, `audioTrack`
and `videoTrack` null, `sdpCreated` false. -/
def freshSession (streamKey : String) (env : OfferEnv) : StreamInfo :=
  { pc := some env.pcHandle
    streamKey := streamKey
    iceCandidates := env.gathered
    answerSdp := env.answerSdp
    ffmpeg := none
    audioTrack := none
    videoTrack := none
    sdpCreated := false }

/-- Source `handleOffer(streamId, streamKey, offer)` (`WebRTCToRTMPBridge.js:129-222`).
Source order: wrtc availability check (throws when unavailable); create the
peer connection; set the remote description; create and set the local answer;
the bounded ICE-gathering wait (always resolves); `setupMediaProcessing`;
finally `activeStreams.set(streamId, {...})` with `ffmpeg`, `audioTrack`,
`videoTrack` null and `sdpCreated` false.  Failures of the native calls are
rethrown by the `catch` block; the state reached so far is returned alongside
the error. -/
def handleOffer (env : OfferEnv) (st : BridgeState) (streamId streamKey : String) :
    Except String OfferResult × BridgeState × List BridgeAction :=
  if !env.wrtcAvailable then
    (Except.error "WebRTC (wrtc) module not available", { st with wrtcAvailable := false }, [])
  else
    let st0 := { st with wrtcAvailable := true }
    if !env.setRemoteOk then (Except.error "setRemoteDescription failed", st0, [])
    else if !env.createAnswerOk then (Except.error "createAnswer failed", st0, [])
    else if !env.setLocalOk then (Except.error "setLocalDescription failed", st0, [])
    else
      let (st1, acts) := setupMediaProcessing st0 streamId env.ffmpegHandle
      (Except.ok { answerSdp := env.answerSdp, iceCandidates := env.gathered },
       { st1 with activeStreams :=
           jsMapSet st1.activeStreams streamId (freshSession streamKey env) },
       acts)

/-! ## Track events (`pc.ontrack`, `WebRTCToRTMPBridge.js:309-343`)

Each arriving track is classified by kind, stored on the session record,
and — once both an audio and a video track are present and `sdpCreated` is
still false — `createSDPForFFmpeg` is invoked and `sdpCreated` is set.  The
handler then stores the ffmpeg process handle on the record.  When the
session is not in the map the handler logs and returns. -/

inductive TrackKind where
  | audio
  | video
  deriving Repr, DecidableEq

/-- Storing the arriving track on the session record by kind
(`WebRTCToRTMPBridge.js:324-330`). -/
def storeTrack (info : StreamInfo) (kind : TrackKind) (trackHandle : Nat) :
    StreamInfo :=
  match kind with
  | TrackKind.audio => { info with audioTrack := some trackHandle }
  | TrackKind.video => { info with videoTrack := some trackHandle }

/-- The guard of the SDP-creation step
(`WebRTCToRTMPBridge.js:332`): both tracks present and `sdpCreated` unset. -/
def fireSDP (info : StreamInfo) : Bool :=
  info.audioTrack.isSome && info.videoTrack.isSome && !info.sdpCreated

/-- The session record after one `ontrack` event: the track stored, the
`sdpCreated` flag set when the guard fired, and the ffmpeg process handle
stored (`WebRTCToRTMPBridge.js:324-337`). -/
def trackUpdate (info : StreamInfo) (kind : TrackKind) (trackHandle ffmpegHandle : Nat) :
    StreamInfo :=
  let stored := if fireSDP (storeTrack info kind trackHandle) = true
    then { storeTrack info kind trackHandle with sdpCreated := true }
    else storeTrack info kind trackHandle
  { stored with ffmpeg := some ffmpegHandle }

/-- One `ontrack` event for a track of the given kind with the given native
track handle; `ffmpegHandle` is the process spawned by the enclosing
`setupMediaProcessing` call.  The handler stores the track, runs
`createSDPForFFmpeg` and sets `sdpCreated` when the guard fires, and stores
the ffmpeg handle; with no session in the map it logs and returns. -/
def onTrack (st : BridgeState) (streamId : String) (kind : TrackKind)
    (trackHandle ffmpegHandle : Nat) : BridgeState × List BridgeAction :=
  match jsMapGet st.activeStreams streamId with
  | none => (st, [])
  | some info =>
      ({ st with activeStreams :=
           jsMapSet st.activeStreams streamId (trackUpdate info kind trackHandle ffmpegHandle) },
       if fireSDP (storeTrack info kind trackHandle) = true
       then [BridgeAction.createSDP streamId] else [])

/-- A sequence of `ontrack` events, delivered in order. -/
def runTracks (st : BridgeState) (streamId : String) (ffmpegHandle : Nat) :
    List (TrackKind × Nat) → BridgeState × List BridgeAction
  | [] => (st, [])
  | (k, h) :: rest =>
      let (st1, a1) := onTrack st streamId k h ffmpegHandle
      let (st2, a2) := runTracks st1 streamId ffmpegHandle rest
      (st2, a1 ++ a2)

/-! ## `waitForIceGathering` (`WebRTCToRTMPBridge.js:227-248`)

The promise resolves immediately when the gathering state is already
`complete`; otherwise it resolves at the first `icegatheringstatechange`
event at which the state is `complete`, and a `setTimeout` fallback resolves
it at `timeout` milliseconds in any case.  An event schedule is a list of
`(time, state-is-complete)` pairs; the resolution instant is the minimum of
the timeout and every event time at which the state is complete and the
listener is still installed (i.e. the event precedes the timeout). -/

def resolveTime (initComplete : Bool) (events : List (Nat × Bool))
    (timeout : Nat) : Nat :=
  if initComplete then 0
  else
    ((events.filter (fun e => e.2 && decide (e.1 < timeout))).map Prod.fst).foldr
      min timeout

/-! ## Signaling server (`server.js`)

`users` maps a socket id to `{roomId, userId, userType}`; `rooms` maps a
room id to an ordered participant list `[{socketId, userId, userType}, ...]`. -/

structure UserRec where
  roomId : String
  userId : String
  userType : String
  deriving Repr, DecidableEq

structure Participant where
  socketId : String
  userId : String
  userType : String
  deriving Repr, DecidableEq

structure ServerState where
  rooms : List (String × List Participant)
  users : List (String × UserRec)
  deriving Repr, DecidableEq

def emptyServer : ServerState := { rooms := [], users := [] }

/-- The participant list of a room (`[]` when the room was never created). -/
def roomList (st : ServerState) (roomId : String) : List Participant :=
  (jsMapGet st.rooms roomId).getD []

/-- The `join-room` handler (`server.js:313-351`): rejects when any of
`roomId`, `userId`, `userType` is falsy (empty string); otherwise registers
the connection in `users` (overwriting any previous registration, without
touching the previous room's list) and appends a participant entry to the
room's list, creating the room if absent. -/
def joinRoom (st : ServerState) (socketId roomId userId userType : String) :
    ServerState × Bool :=
  if roomId = "" || userId = "" || userType = "" then (st, false)
  else
    let u : UserRec := { roomId := roomId, userId := userId, userType := userType }
    let st1 := { st with users := jsMapSet st.users socketId u }
    let room := (jsMapGet st1.rooms roomId).getD []
    let room' := room ++ [{ socketId := socketId, userId := userId, userType := userType }]
    ({ st1 with rooms := jsMapSet st1.rooms roomId room' }, true)

/-- JavaScript `Array.prototype.splice(index, 1)` at the index found by `findIndex`:
remove the first participant entry with the given socket id, if any. -/
def removeFirstBySocket (room : List Participant) (socketId : String) :
    List Participant :=
  match room with
  | [] => []
  | p :: rest =>
      if p.socketId = socketId then rest
      else p :: removeFirstBySocket rest socketId

/-- The `leave-room` handler (`server.js:458-476`): when the connection is
registered, remove its first entry from the *given* room's list (if the room
exists and contains one) and delete the connection from `users`; otherwise a
no-op. -/
def leaveRoom (st : ServerState) (socketId roomId : String) : ServerState :=
  match jsMapGet st.users socketId with
  | none => st
  | some _ =>
      let st1 := match jsMapGet st.rooms roomId with
        | none => st
        | some room =>
            { st with rooms := jsMapSet st.rooms roomId (removeFirstBySocket room socketId) }
      { st1 with users := jsMapDelete st1.users socketId }

/-- The `disconnect` handler (`server.js:479-494`): when the connection is
registered, remove its first entry from the list of *its own current room*
(`user.roomId`) only, then delete it from `users`; otherwise a no-op. -/
def disconnect (st : ServerState) (socketId : String) : ServerState :=
  match jsMapGet st.users socketId with
  | none => st
  | some user =>
      let st1 := match jsMapGet st.rooms user.roomId with
        | none => st
        | some room =>
            { st with rooms := jsMapSet st.rooms user.roomId (removeFirstBySocket room socketId) }
      { st1 with users := jsMapDelete st1.users socketId }

/-! ## Relay handlers (`server.js:354-455`)

The `offer`, `answer`, `ice-candidate` and `peer-connection-state` handlers
first resolve the sender via `users.get(socket.id)` and return silently when
it is unregistered; they then resolve the target as the first `users` entry
matching `(targetUserId, roomId)` and either deliver or drop silently.  The
`stream-type` handler (`server.js:427-432`) performs no sender check: it
evaluates `users.get(socket.id).userId`, which throws a `TypeError` when the
sender is unregistered; otherwise it broadcasts to the room. -/

inductive RelayKind where
  | offer
  | answer
  | iceCandidate
  | streamType
  | peerConnectionState
  deriving Repr, DecidableEq

inductive RelayResult where
  | delivered (targetSocketId senderUserId : String)
  | broadcast (roomId senderUserId : String)
  | droppedNoSender
  | droppedNoTarget
  | thrownTypeError
  deriving Repr, DecidableEq

/-- First `users` entry with the given `(userId, roomId)` pair
(`Array.from(users.entries()).find(...)`). -/
def findTarget (users : List (String × UserRec)) (targetUserId roomId : String) :
    Option (String × UserRec) :=
  users.find? (fun p => p.2.userId = targetUserId && p.2.roomId = roomId)

/-- One relay event of the given kind from the given socket. -/
def relay (st : ServerState) (kind : RelayKind)
    (socketId targetUserId roomId : String) : RelayResult :=
  match kind with
  | RelayKind.streamType =>
      match jsMapGet st.users socketId with
      | none => RelayResult.thrownTypeError
      | some sender => RelayResult.broadcast roomId sender.userId
  | _ =>
      match jsMapGet st.users socketId with
      | none => RelayResult.droppedNoSender
      | some sender =>
          match findTarget st.users targetUserId roomId with
          | none => RelayResult.droppedNoTarget
          | some target => RelayResult.delivered target.1 sender.userId

/-! ## Operation traces over the signaling server -/

inductive ServerOp where
  | join (socketId roomId userId userType : String)
  | leave (socketId roomId : String)
  | disc (socketId : String)
  deriving Repr, DecidableEq

def runOps (st : ServerState) : List ServerOp → ServerState
  | [] => st
  | ServerOp.join s r u t :: rest => runOps (joinRoom st s r u t).1 rest
  | ServerOp.leave s r :: rest => runOps (leaveRoom st s r) rest
  | ServerOp.disc s :: rest => runOps (disconnect st s) rest

/-! ## Helper lemmas and concrete fixtures -/

theorem jsMapGet_set_other {α : Type} (m : List (String × α)) (k k' : String)
    (v : α) (hne : k' ≠ k) : jsMapGet (jsMapSet m k v) k' = jsMapGet m k' := by
  have hkk : ¬ k = k' := fun h => hne h.symm
  induction m with
  | nil => simp [jsMapSet, jsMapGet, hkk]
  | cons hd tl ih =>
      obtain ⟨k0, v0⟩ := hd
      by_cases h : k0 = k
      · subst h
        simp [jsMapSet, jsMapGet, hkk]
      · simp [jsMapSet, jsMapGet, h, ih]

/-- Does the action release a native resource of this stream
(close the peer connection, SIGTERM the pipeline, or stop a track)? -/
def isReleaseAction (streamId : String) : BridgeAction → Bool
  | BridgeAction.closePC s _ => s = streamId
  | BridgeAction.killFfmpeg s _ sig => s = streamId && sig = "SIGTERM"
  | BridgeAction.stopTrack s _ => s = streamId
  | _ => false

/-- A fully populated session record, used as a concrete fixture. -/
def sampleInfo : StreamInfo :=
  { pc := some 1, streamKey := "key123", iceCandidates := ["c0"],
    answerSdp := "v=0", ffmpeg := some 10, audioTrack := some 21,
    videoTrack := some 22, sdpCreated := true }

def sampleBridge : BridgeState :=
  { activeStreams := [("s1", sampleInfo)], wrtcAvailable := true }

def emptyBridge : BridgeState := { activeStreams := [], wrtcAvailable := true }

/-! ## C6 — cleanup idempotence -/

/-- C6: `cleanupStream` is idempotent: with no session for the stream id it
is a no-op (no resource actions, no `stream-cleaned` emission, state
untouched), and a second invocation immediately after a first one always
finds the session gone and does nothing, so two successive calls perform
exactly one teardown. -/
theorem cleanupStream_idempotent (st : BridgeState) (streamId : String) :
    (jsMapGet st.activeStreams streamId = none →
      cleanupStream st streamId = (st, [])) ∧
    cleanupStream (cleanupStream st streamId).1 streamId
      = ((cleanupStream st streamId).1, []) := by
  constructor
  · intro h
    simp [cleanupStream, h]
  · cases h : jsMapGet st.activeStreams streamId with
    | none => simp [cleanupStream, h]
    | some info => simp [cleanupStream, h, jsMapGet_delete_self]

/-- Witness for C6 at a concrete populated state. -/
theorem cleanupStream_idempotent_witness :
    cleanupStream emptyBridge "s1" = (emptyBridge, []) ∧
    cleanupStream (cleanupStream sampleBridge "s1").1 "s1"
      = ((cleanupStream sampleBridge "s1").1, []) :=
  ⟨(cleanupStream_idempotent emptyBridge "s1").1 (by decide),
   (cleanupStream_idempotent sampleBridge "s1").2⟩

/-! ## C2 — order of operations inside `cleanupStream` -/

/-- C2 counterexample: on a fully populated session the very first operation
of `cleanupStream` is closing the peer-connection handle, not removing the
session from the active-stream map; the removal is the fifth step, after the
close, the pipeline SIGTERM and both track stops. -/
theorem cleanupStream_first_step_not_removal :
    (cleanupStream sampleBridge "s1").2.head? = some (BridgeAction.closePC "s1" 1) ∧
    (cleanupStream sampleBridge "s1").2 =
      [BridgeAction.closePC "s1" 1,
       BridgeAction.killFfmpeg "s1" 10 "SIGTERM",
       BridgeAction.stopTrack "s1" 21,
       BridgeAction.stopTrack "s1" 22,
       BridgeAction.removeFromMap "s1",
       BridgeAction.emitCleaned "s1"] := by decide

/-- C2 (amended): for an existing session, `cleanupStream` removes the entry
from the active-stream map *last* — after closing the peer-connection handle,
signalling the pipeline and stopping the track handles — immediately before
emitting the `stream-cleaned` notification; afterwards the session is gone
from the map. -/
theorem cleanupStream_removes_last (st : BridgeState) (streamId : String)
    (info : StreamInfo) (h : jsMapGet st.activeStreams streamId = some info) :
    ∃ pre : List BridgeAction,
      (cleanupStream st streamId).2
        = pre ++ [BridgeAction.removeFromMap streamId, BridgeAction.emitCleaned streamId] ∧
      pre.all (isReleaseAction streamId) = true ∧
      jsMapGet (cleanupStream st streamId).1.activeStreams streamId = none := by
  refine ⟨releaseActs streamId info, by simp [cleanupStream, h], ?_,
          by simp [cleanupStream, h, jsMapGet_delete_self]⟩
  obtain ⟨pc, key, ics, ans, ff, aud, vid, sdp⟩ := info
  rcases pc with _ | p <;> rcases ff with _ | f <;>
    rcases aud with _ | a <;> rcases vid with _ | v <;>
    simp [releaseActs, isReleaseAction]

/-- Witness for C2 (amended) at the concrete populated state. -/
theorem cleanupStream_removes_last_witness :
    ∃ pre : List BridgeAction,
      (cleanupStream sampleBridge "s1").2
        = pre ++ [BridgeAction.removeFromMap "s1", BridgeAction.emitCleaned "s1"] ∧
      pre.all (isReleaseAction "s1") = true ∧
      jsMapGet (cleanupStream sampleBridge "s1").1.activeStreams "s1" = none :=
  cleanupStream_removes_last sampleBridge "s1" sampleInfo (by decide)

/-! ## C8 — pipeline exit handling -/

/-- C8: a non-zero, non-null pipeline exit code triggers the full
`cleanupStream` teardown, after which the session is gone from the registry;
an exit code of zero, or a null exit code, does nothing by itself. -/
theorem ffmpegClose_spec (st : BridgeState) (streamId : String) (c : Int)
    (h : c ≠ 0) :
    onFfmpegClose st streamId (some c) = cleanupStream st streamId ∧
    jsMapGet (onFfmpegClose st streamId (some c)).1.activeStreams streamId = none ∧
    onFfmpegClose st streamId (some 0) = (st, []) ∧
    onFfmpegClose st streamId none = (st, []) := by
  refine ⟨by simp [onFfmpegClose, h], ?_, by simp [onFfmpegClose], rfl⟩
  simp only [onFfmpegClose, if_pos h]
  cases hm : jsMapGet st.activeStreams streamId with
  | none => simp [cleanupStream, hm]
  | some info => simp [cleanupStream, hm, jsMapGet_delete_self]

/-- Witness for C8: exit code 1 on the concrete populated state. -/
theorem ffmpegClose_spec_witness :
    onFfmpegClose sampleBridge "s1" (some 1) = cleanupStream sampleBridge "s1" ∧
    jsMapGet (onFfmpegClose sampleBridge "s1" (some 1)).1.activeStreams "s1" = none :=
  ⟨(ffmpegClose_spec sampleBridge "s1" 1 (by decide)).1,
   (ffmpegClose_spec sampleBridge "s1" 1 (by decide)).2.1⟩

/-! ## C9 — `handleIceCandidate` result -/

/-- C9: `handleIceCandidate` returns `false` (without throwing — the model is
total) when no session exists for the stream id, when the session has no
peer-connection handle, or when the wrtc capability is unavailable; when a
session with a live peer connection exists, wrtc is available and the native
add succeeds, it records the add and returns `true`. -/
theorem handleIceCandidate_spec (st : BridgeState) (streamId cand : String)
    (addOk : Bool) :
    (jsMapGet st.activeStreams streamId = none →
      handleIceCandidate st streamId cand addOk = (false, [])) ∧
    (∀ info, jsMapGet st.activeStreams streamId = some info → info.pc = none →
      handleIceCandidate st streamId cand addOk = (false, [])) ∧
    (st.wrtcAvailable = false →
      (handleIceCandidate st streamId cand addOk).1 = false) ∧
    (∀ info, jsMapGet st.activeStreams streamId = some info →
      info.pc.isSome = true → st.wrtcAvailable = true → addOk = true →
      handleIceCandidate st streamId cand addOk
        = (true, [BridgeAction.addIce streamId cand])) := by
  refine ⟨fun h => by simp [handleIceCandidate, h], ?_, ?_, ?_⟩
  · intro info h hpc
    simp [handleIceCandidate, h, hpc]
  · intro hw
    cases h : jsMapGet st.activeStreams streamId with
    | none => simp [handleIceCandidate, h]
    | some info =>
        cases hpc : info.pc with
        | none => simp [handleIceCandidate, h, hpc]
        | some p => simp [handleIceCandidate, h, hpc, hw]
  · intro info h hpc hw hadd
    cases hp : info.pc with
    | none => simp [hp] at hpc
    | some p => simp [handleIceCandidate, h, hp, hw, hadd]

/-- Witness for C9: the absent-session, absent-pc, wrtc-off and success
cases at concrete inputs. -/
theorem handleIceCandidate_spec_witness :
    handleIceCandidate emptyBridge "s1" "cand" true = (false, []) ∧
    (handleIceCandidate { sampleBridge with wrtcAvailable := false } "s1" "cand" true).1 = false ∧
    handleIceCandidate sampleBridge "s1" "cand" true
      = (true, [BridgeAction.addIce "s1" "cand"]) :=
  ⟨(handleIceCandidate_spec emptyBridge "s1" "cand" true).1 (by decide),
   (handleIceCandidate_spec { sampleBridge with wrtcAvailable := false } "s1" "cand" true).2.2.1 rfl,
   (handleIceCandidate_spec sampleBridge "s1" "cand" true).2.2.2 sampleInfo (by decide)
     (by decide) rfl rfl⟩

/-! ## C10 — `handleOffer` is atomic w.r.t. the session registry on failure -/

/-- C10: when `handleOffer` throws — wrtc unavailable, or any of the
negotiation steps (`setRemoteDescription`, `createAnswer`,
`setLocalDescription`) fails — the active-stream map is left exactly as it
was: for a stream id not previously registered, `getStreamInfo` still
returns `null` and `getActiveStreamCount` is unchanged, and no bridge
action was performed. -/
theorem handleOffer_error_leaves_map (env : OfferEnv) (st : BridgeState)
    (streamId streamKey : String) (e : String)
    (hnot : jsMapGet st.activeStreams streamId = none)
    (herr : (handleOffer env st streamId streamKey).1 = Except.error e) :
    (handleOffer env st streamId streamKey).2.1.activeStreams = st.activeStreams ∧
    getStreamInfo (handleOffer env st streamId streamKey).2.1 streamId = none ∧
    getActiveStreamCount (handleOffer env st streamId streamKey).2.1
      = getActiveStreamCount st ∧
    (handleOffer env st streamId streamKey).2.2 = [] := by
  obtain ⟨w, sr, ca, sl, pch, ffh, ans, gath⟩ := env
  cases w <;> cases sr <;> cases ca <;> cases sl <;>
    simp_all [handleOffer, getStreamInfo, getActiveStreamCount, hnot]

/-- An oracle with the wrtc capability unavailable. -/
def envNoWrtc : OfferEnv :=
  { wrtcAvailable := false, setRemoteOk := true, createAnswerOk := true,
    setLocalOk := true, pcHandle := 1, ffmpegHandle := 11,
    answerSdp := "a", gathered := [] }

/-- Witness for C10: wrtc unavailable on the empty state. -/
theorem handleOffer_error_leaves_map_witness :
    (handleOffer envNoWrtc emptyBridge "s1" "k").2.1.activeStreams
      = emptyBridge.activeStreams ∧
    getStreamInfo (handleOffer envNoWrtc emptyBridge "s1" "k").2.1 "s1" = none :=
  ⟨(handleOffer_error_leaves_map envNoWrtc emptyBridge "s1" "k"
      "WebRTC (wrtc) module not available" (by decide) rfl).1,
   (handleOffer_error_leaves_map envNoWrtc emptyBridge "s1" "k"
      "WebRTC (wrtc) module not available" (by decide) rfl).2.1⟩

/-! ## C7 — the ICE-gathering wait is bounded -/

theorem foldr_min_le (l : List Nat) (t : Nat) : l.foldr min t ≤ t := by
  induction l with
  | nil => exact Nat.le_refl t
  | cons a l ih => exact Nat.le_trans (Nat.min_le_right a (l.foldr min t)) ih

theorem foldr_min_le_mem (l : List Nat) (t x : Nat) (hx : x ∈ l) :
    l.foldr min t ≤ x := by
  induction l with
  | nil => cases hx
  | cons a l ih =>
      rcases List.mem_cons.mp hx with h | h
      · rw [h]
        exact Nat.min_le_left a (l.foldr min t)
      · exact Nat.le_trans (Nat.min_le_right a (l.foldr min t)) (ih h)

/-- C7: the ICE-gathering wait always resolves within the timeout, for every
schedule of `icegatheringstatechange` events (including none at all), and it
resolves no later than any event at which the gathering state is complete
and the listener is still installed; with the state already complete it
resolves immediately. -/
theorem waitForIceGathering_bounded (initComplete : Bool)
    (events : List (Nat × Bool)) (timeout : Nat) :
    resolveTime initComplete events timeout ≤ timeout ∧
    (∀ e ∈ events, e.2 = true → e.1 < timeout →
      resolveTime initComplete events timeout ≤ e.1) ∧
    (initComplete = true → resolveTime initComplete events timeout = 0) := by
  refine ⟨?_, ?_, ?_⟩
  · unfold resolveTime
    split
    · exact Nat.zero_le _
    · exact foldr_min_le _ _
  · intro e he h2 hlt
    unfold resolveTime
    split
    · exact Nat.zero_le _
    · refine foldr_min_le_mem _ _ _ ?_
      refine List.mem_map.mpr ⟨e, ?_, rfl⟩
      refine List.mem_filter.mpr ⟨he, ?_⟩
      simp [h2, hlt]
  · intro h
    simp [resolveTime, h]

/-- Witness for C7: with no events at all the wait resolves exactly at the
5000 ms timeout; a completion event at 3 ms resolves the wait by 3 ms. -/
theorem waitForIceGathering_bounded_witness :
    resolveTime false [] 5000 ≤ 5000 ∧
    resolveTime false [(3, true)] 5000 ≤ 3 :=
  ⟨(waitForIceGathering_bounded false [] 5000).1,
   (waitForIceGathering_bounded false [(3, true)] 5000).2.1 (3, true)
     (List.mem_singleton.mpr rfl) rfl (by decide)⟩

/-! ## C3 — duplicate `handleOffer` silently replaces the session -/

/-- The oracle for a second, successful offer for an already-active stream. -/
def envDup : OfferEnv :=
  { wrtcAvailable := true, setRemoteOk := true, createAnswerOk := true,
    setLocalOk := true, pcHandle := 2, ffmpegHandle := 20,
    answerSdp := "answer2", gathered := [] }

/-- C3 (code bug): with stream `s1` already active (peer connection handle 1,
pipeline handle 10), a second `handleOffer` for `s1` succeeds — it is not
rejected — performs no teardown of the first session (no close of handle 1,
no kill of handle 10 appears in the action trace), and silently overwrites
the map entry with a fresh record, orphaning the first session's native
handles and pipeline. -/
theorem handleOffer_silently_replaces :
    (handleOffer envDup sampleBridge "s1" "key2").1
      = Except.ok { answerSdp := "answer2", iceCandidates := [] } ∧
    jsMapGet (handleOffer envDup sampleBridge "s1" "key2").2.1.activeStreams "s1"
      = some { pc := some 2, streamKey := "key2", iceCandidates := [],
               answerSdp := "answer2", ffmpeg := none, audioTrack := none,
               videoTrack := none, sdpCreated := false } ∧
    ((handleOffer envDup sampleBridge "s1" "key2").2.2.all
      (fun a => !(a == BridgeAction.closePC "s1" 1)
             && !(a == BridgeAction.killFfmpeg "s1" 10 "SIGTERM"))) = true :=
  ⟨rfl, by decide, by decide⟩

/-! ## C4 — unknown-sender relays -/

/-- C4 (code bug): a sender-connection not registered in the user map is
dropped silently by the `offer`, `answer`, `ice-candidate` and
`peer-connection-state` handlers, but the `stream-type` handler dereferences
`users.get(socket.id).userId` without a sender check and throws a
`TypeError` — the claim fails for the fifth kind. -/
theorem streamType_unknown_sender_throws :
    relay emptyServer RelayKind.streamType "sock1" "userA" "room1"
      = RelayResult.thrownTypeError ∧
    relay emptyServer RelayKind.offer "sock1" "userA" "room1"
      = RelayResult.droppedNoSender ∧
    relay emptyServer RelayKind.answer "sock1" "userA" "room1"
      = RelayResult.droppedNoSender ∧
    relay emptyServer RelayKind.iceCandidate "sock1" "userA" "room1"
      = RelayResult.droppedNoSender ∧
    relay emptyServer RelayKind.peerConnectionState "sock1" "userA" "room1"
      = RelayResult.droppedNoSender := by
  decide

/-! ## C1 — when is the transcode pipeline started? -/

/-- The oracle for a fresh, successful offer. -/
def envFresh : OfferEnv :=
  { wrtcAvailable := true, setRemoteOk := true, createAnswerOk := true,
    setLocalOk := true, pcHandle := 1, ffmpegHandle := 11,
    answerSdp := "answer1", gathered := ["cand1"] }

/-- C1 counterexample: a successful `handleOffer` on a fresh stream spawns
the ffmpeg process immediately (the spawn is in the action trace), while the
resulting session has observed neither an audio nor a video track — the
pipeline process is started before both track kinds are present. -/
theorem ffmpeg_spawned_before_tracks :
    (handleOffer envFresh emptyBridge "s1" "key1").2.2
      = [BridgeAction.spawnFfmpeg "s1" 11] ∧
    getStreamInfo (handleOffer envFresh emptyBridge "s1" "key1").2.1 "s1"
      = some { streamId := "s1", streamKey := "key1", hasAudio := false,
               hasVideo := false, ffmpegRunning := false,
               wrtcAvailable := true } := by
  decide

/-! The track-gated SDP step, abstractly: only the pair of presence bits and
the `sdpCreated` flag of a session influence whether the step fires, so the
per-event effect is mirrored on `Bool` triples. -/

/-- The presence bits and `sdpCreated` flag of a session record. -/
def absInfo (info : StreamInfo) : Bool × Bool × Bool :=
  (info.audioTrack.isSome, info.videoTrack.isSome, info.sdpCreated)

/-- Effect of one track event of kind `k` on `(hasAudio, hasVideo,
sdpCreated)`, paired with how many SDP-creation steps it performs. -/
def trackStep (t : Bool × Bool × Bool) (k : TrackKind) :
    (Bool × Bool × Bool) × Nat :=
  ((t.1 || (k == TrackKind.audio),
    t.2.1 || (k == TrackKind.video),
    t.2.2 || ((t.1 || (k == TrackKind.audio)) && (t.2.1 || (k == TrackKind.video)) && !t.2.2)),
   if ((t.1 || (k == TrackKind.audio)) && (t.2.1 || (k == TrackKind.video)) && !t.2.2) = true
   then 1 else 0)

def trackFold (t : Bool × Bool × Bool) : List TrackKind → (Bool × Bool × Bool) × Nat
  | [] => (t, 0)
  | k :: ks =>
      ((trackFold (trackStep t k).1 ks).1,
       (trackStep t k).2 + (trackFold (trackStep t k).1 ks).2)

theorem any_false_of_isEmpty {α : Type} (l : List α) (p : α → Bool)
    (h : l.isEmpty = true) : l.any p = false := by
  cases l with
  | nil => rfl
  | cons a l => simp [List.isEmpty] at h

/-- The arithmetic of one fold step of the SDP-creation count, as a pure
Boolean fact. -/
theorem trackFold_count_step (a v s ka kv ra rv er : Bool)
    (h1 : er = true → ra = false) (h2 : er = true → rv = false) :
    ((if ((a || ka) && (v || kv) && !s) = true then 1 else 0) +
      (if (!(s || ((a || ka) && (v || kv) && !s)) && ((a || ka) || ra)
            && ((v || kv) || rv) && !er) = true then 1 else 0))
      = (if (!s && (a || (ka || ra)) && (v || (kv || rv)) && !false) = true
         then 1 else 0) := by
  revert h1 h2
  cases a <;> cases v <;> cases s <;> cases ka <;> cases kv <;>
    cases ra <;> cases rv <;> cases er <;> decide

/-- Characterization of the abstract fold: the presence bits accumulate the
kinds seen, and the number of SDP-creation steps is `1` exactly when the flag
was unset, both kinds end up present, and at least one event occurred. -/
theorem trackFold_spec (ks : List TrackKind) :
    ∀ a v s : Bool,
      (trackFold (a, v, s) ks).1.1
        = (a || ks.any (fun k => k == TrackKind.audio)) ∧
      (trackFold (a, v, s) ks).1.2.1
        = (v || ks.any (fun k => k == TrackKind.video)) ∧
      (trackFold (a, v, s) ks).2
        = (if (!s && (a || ks.any (fun k => k == TrackKind.audio))
              && (v || ks.any (fun k => k == TrackKind.video))
              && !ks.isEmpty) = true
           then 1 else 0) := by
  induction ks with
  | nil =>
      intro a v s
      simp [trackFold]
  | cons k rest ih =>
      intro a v s
      obtain ⟨hA, hV, hC⟩ :=
        ih (a || (k == TrackKind.audio)) (v || (k == TrackKind.video))
           (s || ((a || (k == TrackKind.audio)) && (v || (k == TrackKind.video)) && !s))
      refine ⟨?_, ?_, ?_⟩
      · simp only [trackFold, trackStep, List.any_cons, hA, Bool.or_assoc]
      · simp only [trackFold, trackStep, List.any_cons, hV, Bool.or_assoc]
      · simp only [trackFold, trackStep, List.any_cons, List.isEmpty_cons, hC]
        exact trackFold_count_step a v s (k == TrackKind.audio) (k == TrackKind.video)
          (rest.any fun k => k == TrackKind.audio) (rest.any fun k => k == TrackKind.video)
          rest.isEmpty (any_false_of_isEmpty rest _) (any_false_of_isEmpty rest _)

/-- One `ontrack` event affects the presence bits and `sdpCreated` flag of
the session exactly as `trackStep`, and emits an SDP-creation action exactly
when `trackStep` counts one. -/
theorem onTrack_abs (info : StreamInfo) (k : TrackKind) (th ffh : Nat) :
    absInfo (trackUpdate info k th ffh) = (trackStep (absInfo info) k).1 ∧
    (if fireSDP (storeTrack info k th) = true then 1 else 0)
      = (trackStep (absInfo info) k).2 := by
  obtain ⟨pc, key, ics, ans, ff, aud, vid, sdp⟩ := info
  cases k <;> rcases aud with _ | a <;> rcases vid with _ | v <;> cases sdp <;>
    simp [absInfo, storeTrack, fireSDP, trackStep, trackUpdate]

/-- Simulation: running a sequence of `ontrack` events on a registered
session tracks `trackFold` on the abstraction, and the number of emitted
SDP-creation actions equals the fold's count. -/
theorem runTracks_abs (sid : String) (ffh : Nat)
    (evts : List (TrackKind × Nat)) :
    ∀ (st : BridgeState) (info : StreamInfo),
      jsMapGet st.activeStreams sid = some info →
      ∃ info', jsMapGet (runTracks st sid ffh evts).1.activeStreams sid = some info' ∧
        absInfo info' = (trackFold (absInfo info) (evts.map Prod.fst)).1 ∧
        (runTracks st sid ffh evts).2.count (BridgeAction.createSDP sid)
          = (trackFold (absInfo info) (evts.map Prod.fst)).2 := by
  induction evts with
  | nil =>
      intro st info h
      exact ⟨info, by simpa [runTracks] using h, rfl, by simp [runTracks, trackFold]⟩
  | cons e rest ih =>
      intro st info h
      obtain ⟨k, th⟩ := e
      obtain ⟨habs, hcnt⟩ := onTrack_abs info k th ffh
      obtain ⟨info', hm, habs', hcnt'⟩ :=
        ih { st with activeStreams :=
               jsMapSet st.activeStreams sid (trackUpdate info k th ffh) }
           (trackUpdate info k th ffh)
           (jsMapGet_set_self _ _ _)
      refine ⟨info', ?_, ?_, ?_⟩
      · simpa [runTracks, onTrack, h] using hm
      · rw [habs, trackStep] at habs'
        simp only [runTracks, onTrack, h, List.map_cons, trackFold, trackStep]
        exact habs'
      · rw [habs] at habs' hcnt'
        simp only [runTracks, onTrack, h, List.map_cons, trackFold, List.count_append, hcnt']
        by_cases hf : fireSDP (storeTrack info k th) = true <;>
          simp [hf] at hcnt ⊢ <;> omega

/-- C1 (amended): a successful `handleOffer` spawns the ffmpeg process
exactly once, unconditionally, before any track has arrived; the
track-gated step of `setupMediaProcessing` is the SDP-creation step
(`createSDPForFFmpeg` + `sdpCreated := true`), which — over any subsequent
sequence of `ontrack` events — is performed exactly once if both an audio
and a video track are observed, and never otherwise. -/
theorem transcode_pipeline_start (env : OfferEnv) (st : BridgeState)
    (streamId streamKey : String) (evts : List (TrackKind × Nat))
    (res : OfferResult)
    (hok : (handleOffer env st streamId streamKey).1 = Except.ok res) :
    (handleOffer env st streamId streamKey).2.2
      = [BridgeAction.spawnFfmpeg streamId env.ffmpegHandle] ∧
    (runTracks (handleOffer env st streamId streamKey).2.1 streamId
        env.ffmpegHandle evts).2.count (BridgeAction.createSDP streamId)
      = (if ((evts.map Prod.fst).any (fun k => k == TrackKind.audio)
            && (evts.map Prod.fst).any (fun k => k == TrackKind.video)) = true
         then 1 else 0) := by
  obtain ⟨w, sr, ca, sl, pch, ffh, ans, gath⟩ := env
  cases w <;> cases sr <;> cases ca <;> cases sl <;>
    try simp [handleOffer] at hok
  have hreg : jsMapGet
      (handleOffer ⟨true, true, true, true, pch, ffh, ans, gath⟩
        st streamId streamKey).2.1.activeStreams streamId
      = some (freshSession streamKey ⟨true, true, true, true, pch, ffh, ans, gath⟩) := by
    simp only [handleOffer, setupMediaProcessing]
    simp [jsMapGet_set_self]
  refine ⟨by simp [handleOffer, setupMediaProcessing], ?_⟩
  obtain ⟨info', hm, habs, hcnt⟩ :=
    runTracks_abs streamId ffh evts _ _ hreg
  rw [hcnt]
  have habs0 : absInfo (freshSession streamKey ⟨true, true, true, true, pch, ffh, ans, gath⟩)
      = (false, false, false) := rfl
  rw [habs0]
  obtain ⟨-, -, hC⟩ := trackFold_spec (evts.map Prod.fst) false false false
  rw [hC]
  have h1 := any_false_of_isEmpty (evts.map Prod.fst) (fun k => k == TrackKind.audio)
  cases hea : (evts.map Prod.fst).any (fun k => k == TrackKind.audio) <;>
    cases hev : (evts.map Prod.fst).any (fun k => k == TrackKind.video) <;>
    cases hem : (evts.map Prod.fst).isEmpty <;> simp_all

/-- Witness for C1 (amended): a fresh successful offer followed by one audio
and one video track performs exactly one SDP-creation step. -/
theorem transcode_pipeline_start_witness :
    (handleOffer envFresh emptyBridge "s1" "key1").2.2
      = [BridgeAction.spawnFfmpeg "s1" envFresh.ffmpegHandle] ∧
    (runTracks (handleOffer envFresh emptyBridge "s1" "key1").2.1 "s1"
        envFresh.ffmpegHandle [(TrackKind.audio, 1), (TrackKind.video, 2)]).2.count
      (BridgeAction.createSDP "s1") = 1 := by
  obtain ⟨h1, h2⟩ := transcode_pipeline_start envFresh emptyBridge "s1" "key1"
    [(TrackKind.audio, 1), (TrackKind.video, 2)]
    { answerSdp := "answer1", iceCandidates := ["cand1"] } rfl
  refine ⟨h1, ?_⟩
  rw [h2]
  rfl

/-! ## C5 — room participant accounting -/

/-- Does the room's list contain an entry for the connection? -/
def inRoom (st : ServerState) (roomId socketId : String) : Bool :=
  (roomList st roomId).any (fun p => p.socketId == socketId)

/-- The trace: one connection joins room A, then room B without leaving A,
then disconnects. -/
def c5trace : List ServerOp :=
  [ServerOp.join "s" "A" "u" "broadcaster",
   ServerOp.join "s" "B" "u" "broadcaster",
   ServerOp.disc "s"]

/-- C5 counterexample: after `join A; join B; disconnect`, room A still holds
the connection's entry — one join into A and a disconnect of the (then still
registered) connection, yet A's list has length 1, not 0 — and the entry is
permanently stale: the connection is no longer registered, and further
`disconnect` or `leave-room` calls for it are no-ops that leave the entry in
place. -/
theorem stale_room_entry :
    roomList (runOps emptyServer c5trace) "A"
      = [{ socketId := "s", userId := "u", userType := "broadcaster" }] ∧
    jsMapGet (runOps emptyServer c5trace).users "s" = none ∧
    disconnect (runOps emptyServer c5trace) "s" = runOps emptyServer c5trace ∧
    leaveRoom (runOps emptyServer c5trace) "s" "A" = runOps emptyServer c5trace := by
  decide

theorem length_pos_of_any {α : Type} (l : List α) (p : α → Bool)
    (h : l.any p = true) : 1 ≤ l.length := by
  cases l with
  | nil => simp at h
  | cons a l => simp [List.length_cons]

theorem removeFirstBySocket_length (room : List Participant) (s : String) :
    (removeFirstBySocket room s).length
      = room.length - (if room.any (fun p => p.socketId == s) = true then 1 else 0) := by
  induction room with
  | nil => rfl
  | cons q rest ih =>
      by_cases h : q.socketId = s
      · simp [removeFirstBySocket, h]
      · have hq : (q.socketId == s) = false := by simp [h]
        by_cases ha : rest.any (fun p => p.socketId == s) = true
        · have hlen := length_pos_of_any rest _ ha
          simp [removeFirstBySocket, h, ih, List.any_cons, hq, ha]
          omega
        · simp [removeFirstBySocket, h, ih, List.any_cons, hq, ha]

/-- C5 (amended): the per-operation membership law the code actually obeys.
A valid join appends exactly one entry to the target room and touches no
other room (in particular it does not remove the connection from a
previously joined room); `leave-room(r)` of a registered connection removes
exactly its first entry from room `r` (if present) and touches no other
room; `disconnect` removes exactly the connection's first entry from its
*current* room only; both are no-ops for unregistered connections.  Hence a
room's length is joins minus these removals, and an entry left behind by a
room switch is removed only by an explicit `leave-room` of the old room
before deregistration. -/
theorem room_membership_law (st : ServerState) (s r u t : String) :
    (r ≠ "" → u ≠ "" → t ≠ "" →
      (roomList (joinRoom st s r u t).1 r).length = (roomList st r).length + 1) ∧
    (∀ r', r' ≠ r → roomList (joinRoom st s r u t).1 r' = roomList st r') ∧
    ((jsMapGet st.users s).isSome = true →
      (roomList (leaveRoom st s r) r).length
        = (roomList st r).length - (if inRoom st r s = true then 1 else 0)) ∧
    (∀ r', r' ≠ r → roomList (leaveRoom st s r) r' = roomList st r') ∧
    (∀ user, jsMapGet st.users s = some user →
      (roomList (disconnect st s) user.roomId).length
        = (roomList st user.roomId).length
            - (if inRoom st user.roomId s = true then 1 else 0) ∧
      (∀ r', r' ≠ user.roomId → roomList (disconnect st s) r' = roomList st r')) ∧
    (jsMapGet st.users s = none → leaveRoom st s r = st ∧ disconnect st s = st) := by
  refine ⟨?_, ?_, ?_, ?_, ?_, ?_⟩
  · intro hr hu ht
    simp [joinRoom, roomList, hr, hu, ht, jsMapGet_set_self]
  · intro r' hne
    by_cases hv : r = "" ∨ u = "" ∨ t = ""
    · rcases hv with hv | hv | hv <;> simp [joinRoom, hv]
    · push_neg at hv
      simp [joinRoom, roomList, hv.1, hv.2.1, hv.2.2, jsMapGet_set_other _ _ _ _ hne]
  · intro hs
    cases hu : jsMapGet st.users s with
    | none => simp [hu] at hs
    | some user =>
        cases hm : jsMapGet st.rooms r with
        | none => simp [leaveRoom, hu, hm, roomList, inRoom]
        | some room =>
            simp [leaveRoom, hu, hm, roomList, inRoom, jsMapGet_set_self,
                  removeFirstBySocket_length]
  · intro r' hne
    cases hu : jsMapGet st.users s with
    | none => simp [leaveRoom, hu]
    | some user =>
        cases hm : jsMapGet st.rooms r with
        | none => simp [leaveRoom, hu, hm, roomList]
        | some room =>
            simp [leaveRoom, hu, hm, roomList, jsMapGet_set_other _ _ _ _ hne]
  · intro user hu
    constructor
    · cases hm : jsMapGet st.rooms user.roomId with
      | none => simp [disconnect, hu, hm, roomList, inRoom]
      | some room =>
          simp [disconnect, hu, hm, roomList, inRoom, jsMapGet_set_self,
                removeFirstBySocket_length]
    · intro r' hne
      cases hm : jsMapGet st.rooms user.roomId with
      | none => simp [disconnect, hu, hm, roomList]
      | some room =>
          simp [disconnect, hu, hm, roomList, jsMapGet_set_other _ _ _ _ hne]
  · intro hu
    exact ⟨by simp [leaveRoom, hu], by simp [disconnect, hu]⟩

/-- A one-join concrete state for the C5 witness. -/
def c5s1 : ServerState := (joinRoom emptyServer "s" "A" "u" "viewer").1

/-- Witness for C5 (amended): a concrete join adds one entry; a concrete
leave of a registered connection removes it; leave of an unregistered
connection is a no-op. -/
theorem room_membership_law_witness :
    (roomList (joinRoom emptyServer "s" "A" "u" "viewer").1 "A").length
      = (roomList emptyServer "A").length + 1 ∧
    (roomList (leaveRoom c5s1 "s" "A") "A").length
      = (roomList c5s1 "A").length - (if inRoom c5s1 "A" "s" = true then 1 else 0) ∧
    leaveRoom emptyServer "s" "A" = emptyServer :=
  ⟨(room_membership_law emptyServer "s" "A" "u" "viewer").1
      (by decide) (by decide) (by decide),
   (room_membership_law c5s1 "s" "A" "u" "viewer").2.2.1 (by decide),
   ((room_membership_law emptyServer "s" "A" "u" "viewer").2.2.2.2.2 (by decide)).1⟩

end SigServer
